import Mathlib

/-!
Verification of the Inlet proxy data plane (np_base/src/proxy/inlet.rs).

The inlet's state (the session registry, each session's writer sink and
backpressure counter) is embedded as explicit state passing: the writer
sink of a session is represented by the list of writer messages enqueued
on it, the `on_output_callback` egress by the list of proxy messages
emitted during a call, and the `usize` counters by `Nat`.  The crypto kit
(crypto.rs lives outside the verified sources) is passed as an explicit
parameter structure, so the inlet code is verified for an arbitrary kit.
-/

/-- Modelled from the spec: crypto.rs is not among the provided sources.
The encryption method is a variant of {None, ...algorithm tags...}; method
None short-circuits encrypt/decrypt to identity. -/
inductive EncryptionMethod where
  | None : EncryptionMethod
  | Tag : String → EncryptionMethod
deriving DecidableEq

/-- Modelled from the spec: the method name string carried in I2oConnect
(the Display impl of crypto.rs); an algorithm tag displays its name. -/
def EncryptionMethod.to_string : EncryptionMethod → String
  | EncryptionMethod.None => "None"
  | EncryptionMethod.Tag n => n

/-- Modelled from the spec: the crypto kit operations consumed by the
inlet (crypto.rs is not among the provided sources).  Byte strings are
lists of naturals; fallible operations return `Except`.  The inlet logic
is verified for an arbitrary kit. -/
structure CryptoKit where
  get_method : String → EncryptionMethod
  generate_key : EncryptionMethod → List Nat
  compress_data : List Nat → Except String (List Nat)
  decompress_data : List Nat → Except String (List Nat)
  encrypt : EncryptionMethod → List Nat → List Nat → Except String (List Nat)
  decrypt : EncryptionMethod → List Nat → List Nat → Except String (List Nat)

/-- Modelled from the spec: the ProxyMessage tagged union (the proxy
module file declaring it is not among the provided sources; §3 of the
spec fixes the eight variant shapes). -/
inductive ProxyMessage where
  | I2oConnect : Nat → Bool → Bool → String → String → String → String → ProxyMessage
  | I2oDisconnect : Nat → ProxyMessage
  | I2oSendData : Nat → List Nat → ProxyMessage
  | I2oRecvDataResult : Nat → Nat → ProxyMessage
  | O2iConnect : Nat → Bool → String → ProxyMessage
  | O2iDisconnect : Nat → ProxyMessage
  | O2iRecvData : Nat → List Nat → ProxyMessage
  | O2iSendDataResult : Nat → Nat → ProxyMessage
deriving DecidableEq

/-- The session id field of a proxy message. -/
def ProxyMessage.session_id : ProxyMessage → Nat
  | ProxyMessage.I2oConnect sid _ _ _ _ _ _ => sid
  | ProxyMessage.I2oDisconnect sid => sid
  | ProxyMessage.I2oSendData sid _ => sid
  | ProxyMessage.I2oRecvDataResult sid _ => sid
  | ProxyMessage.O2iConnect sid _ _ => sid
  | ProxyMessage.O2iDisconnect sid => sid
  | ProxyMessage.O2iRecvData sid _ => sid
  | ProxyMessage.O2iSendDataResult sid _ => sid

/-- Whether a proxy message is an outlet-to-inlet (O2i) variant. -/
def ProxyMessage.isO2i : ProxyMessage → Bool
  | ProxyMessage.O2iConnect _ _ _ => true
  | ProxyMessage.O2iDisconnect _ => true
  | ProxyMessage.O2iRecvData _ _ => true
  | ProxyMessage.O2iSendDataResult _ _ => true
  | _ => false

/-- Modelled from the spec: the writer messages of the net module (not
among the provided sources): `Data`, `SendAndThen(data, completion)`
(named `SendAndAck` in the spec) and `Close`.  The completion closure is
represented by the proxy message it emits when the write completes. -/
inductive WriterMessage where
  | Data : List Nat → WriterMessage
  | SendAndThen : List Nat → ProxyMessage → WriterMessage
  | Close : WriterMessage
deriving DecidableEq

/-- One registry record (struct SessionInfo of inlet.rs); the mpsc sender
is represented by the list `sent` of writer messages enqueued on it. -/
structure SessionInfo where
  sent : List WriterMessage
  is_compressed : Bool
  encryption_method : EncryptionMethod
  encryption_key : List Nat
  read_buf_len : Nat
deriving DecidableEq

/-- The session registry (type SessionInfoMap of inlet.rs), a map from
session id to record, embedded as an association list. -/
abbrev SessionInfoMap : Type := List (Nat × SessionInfo)

/-- HashMap::get on the registry. -/
def lookupSession : SessionInfoMap → Nat → Option SessionInfo
  | [], _ => Option.none
  | p :: rest, sid => if p.1 = sid then Option.some p.2 else lookupSession rest sid

/-- Mutation of the record stored under a key (through the shared Arc /
sender handles held in the registry record). -/
def updateSession (reg : SessionInfoMap) (sid : Nat) (f : SessionInfo → SessionInfo) :
    SessionInfoMap :=
  reg.map (fun p => if p.1 = sid then (p.1, f p.2) else p)

/-- HashMap::remove on the registry. -/
def removeSession (reg : SessionInfoMap) (sid : Nat) : SessionInfoMap :=
  reg.filter (fun p => p.1 != sid)

/-- HashMap::insert on the registry (replaces an existing entry). -/
def insertSession (reg : SessionInfoMap) (sid : Nat) (info : SessionInfo) :
    SessionInfoMap :=
  (sid, info) :: removeSession reg sid

/-- const READ_BUF_MAX_LEN of inlet.rs. -/
def READ_BUF_MAX_LEN : Nat := 1024 * 1024

/-- enum InletProxyType of inlet.rs. -/
inductive InletProxyType where
  | TCP : InletProxyType
  | UDP : InletProxyType
  | SOCKS5 : InletProxyType
deriving DecidableEq

/-- InletProxyType::from_u32 of inlet.rs. -/
def InletProxyType.from_u32 : Nat → Option InletProxyType
  | 0 => Option.some InletProxyType.TCP
  | 1 => Option.some InletProxyType.UDP
  | 2 => Option.some InletProxyType.SOCKS5
  | _ => Option.none

/-- Inlet::start of inlet.rs, reduced to its decision structure: the
`running` flag stands for `shutdown_tx.is_some()`, and the outcome of
`tcp_server::bind` / `udp_server::bind` on the listen address is passed
in as `bind_result` (the network is outside the embedding).  The value
returned pairs the `anyhow::Result` with the `running` flag afterwards. -/
def Inlet.start (running : Bool) (inlet_proxy_type : InletProxyType)
    (bind_result : Except String Unit) : Except String Unit × Bool :=
  if running then (Except.error ("Repeated start"), running)
  else
    match inlet_proxy_type with
    | InletProxyType.TCP =>
      match bind_result with
      | Except.ok _ => (Except.ok (), true)
      | Except.error e => (Except.error e, false)
    | InletProxyType.UDP =>
      match bind_result with
      | Except.ok _ => (Except.ok (), true)
      | Except.error e => (Except.error e, false)
    | InletProxyType.SOCKS5 => (Except.error ("SOCKS5 (Not implemented)"), false)

/-- Inlet::input_internal of inlet.rs.  The call transforms the registry
and returns the list of proxy messages emitted through
`on_output_callback`; enqueueing on a session's writer sink appends to
that session's `sent` list. -/
def Inlet.input_internal (kit : CryptoKit) (reg : SessionInfoMap)
    (message : ProxyMessage) : Except String (SessionInfoMap × List ProxyMessage) :=
  match message with
  | ProxyMessage.O2iConnect session_id success _error_msg =>
    if success then Except.ok (reg, [])
    else
      match lookupSession reg session_id with
      | Option.some _ =>
        Except.ok (updateSession reg session_id (fun info =>
          { info with sent := info.sent ++ [WriterMessage.Close] }), [])
      | Option.none => Except.ok (reg, [])
  | ProxyMessage.O2iDisconnect session_id =>
    match lookupSession reg session_id with
    | Option.some _ =>
      Except.ok (updateSession reg session_id (fun info =>
        { info with sent := info.sent ++ [WriterMessage.Close] }), [])
    | Option.none => Except.ok (reg, [])
  | ProxyMessage.O2iSendDataResult session_id data_len =>
    match lookupSession reg session_id with
    | Option.some _ =>
      Except.ok (updateSession reg session_id (fun info =>
        { info with read_buf_len :=
            if info.read_buf_len ≤ data_len then 0
            else info.read_buf_len - data_len }), [])
    | Option.none => Except.ok (reg, [])
  | ProxyMessage.O2iRecvData session_id data =>
    let data_len := data.length
    match lookupSession reg session_id with
    | Option.some session =>
      match (match session.encryption_method with
             | EncryptionMethod.None => Except.ok data
             | _ => kit.decrypt session.encryption_method session.encryption_key data) with
      | Except.error e => Except.error e
      | Except.ok d1 =>
        match (if session.is_compressed then kit.decompress_data d1 else Except.ok d1) with
        | Except.error e => Except.error e
        | Except.ok d2 =>
          Except.ok (updateSession reg session_id (fun info =>
            { info with sent := info.sent ++
                [WriterMessage.SendAndThen d2
                  (ProxyMessage.I2oRecvDataResult session_id data_len)] }), [])
    | Option.none => Except.ok (reg, [])
  | _ => Except.error ("Unknown message")

/-- Inlet::input of inlet.rs: runs input_internal and logs (swallows) any
error; no error reaches the caller and no partial mutation precedes an
error in any branch. -/
def Inlet.input (kit : CryptoKit) (reg : SessionInfoMap) (message : ProxyMessage) :
    SessionInfoMap × List ProxyMessage :=
  match Inlet.input_internal kit reg message with
  | Except.ok r => r
  | Except.error _ => (reg, [])

/-- struct InletSession of inlet.rs; the shared Arc on read_buf_len is
embedded by carrying the counter value in the session state. -/
structure InletSession where
  is_tcp : Bool
  output_addr : String
  session_id : Nat
  is_compressed : Bool
  encryption_method : EncryptionMethod
  encryption_key : List Nat
  read_buf_len : Nat
deriving DecidableEq

/-- InletSession::new of inlet.rs. -/
def InletSession.new (kit : CryptoKit) (is_tcp : Bool) (output_addr : String)
    (is_compressed : Bool) (encryption_method : String) : InletSession :=
  let method := kit.get_method encryption_method
  let key := kit.generate_key method
  { is_tcp := is_tcp
    output_addr := output_addr
    session_id := 0
    is_compressed := is_compressed
    encryption_method := method
    encryption_key := key
    read_buf_len := 0 }

/-- The RFC 4648 standard base64 alphabet used by BASE64_STANDARD. -/
def base64Alphabet : String :=
  "ABCDEFGHIJKLMNOPQRSTUVWXYZabcdefghijklmnopqrstuvwxyz0123456789+/"

/-- Character of the standard base64 alphabet at a 6-bit index. -/
def b64At (i : Nat) : Char := base64Alphabet.toList.getD i 'A'

/-- BASE64_STANDARD.encode of the base64 crate: standard alphabet with
padding, on bytes given as naturals below 256. -/
def base64_standard_encode : List Nat → String
  | [] => ""
  | [a] =>
    String.mk [b64At (a / 4), b64At (a % 4 * 16), '=', '=']
  | [a, b] =>
    String.mk [b64At (a / 4), b64At (a % 4 * 16 + b / 16), b64At (b % 16 * 4), '=']
  | a :: b :: c :: rest =>
    String.mk [b64At (a / 4), b64At (a % 4 * 16 + b / 16),
      b64At (b % 16 * 4 + c / 64), b64At (c % 64)] ++ base64_standard_encode rest

/-- InletSession::on_session_start of inlet.rs: record the acceptor's
session id, insert the registry record, emit I2oConnect.  Returns the
updated session state, the updated registry and the emitted messages. -/
def InletSession.on_session_start (s : InletSession) (session_id : Nat)
    (addr : String) (reg : SessionInfoMap) :
    InletSession × SessionInfoMap × List ProxyMessage :=
  let s2 := { s with session_id := session_id }
  (s2,
   insertSession reg session_id
     { sent := []
       is_compressed := s.is_compressed
       encryption_method := s.encryption_method
       encryption_key := s.encryption_key
       read_buf_len := s.read_buf_len },
   [ProxyMessage.I2oConnect session_id s.is_tcp s.is_compressed s.output_addr
      (EncryptionMethod.to_string s.encryption_method)
      (base64_standard_encode s.encryption_key)
      addr])

/-- InletSession::on_session_close of inlet.rs: remove the registry entry
and emit I2oDisconnect. -/
def InletSession.on_session_close (s : InletSession) (reg : SessionInfoMap) :
    SessionInfoMap × List ProxyMessage :=
  (removeSession reg s.session_id, [ProxyMessage.I2oDisconnect s.session_id])

/-- InletSession::on_try_extract_frame of inlet.rs: `buffer.split().to_vec()`
takes all buffered bytes as the frame and leaves the buffer empty.  The
result pairs the returned `Ok(Some(frame))` with the buffer afterwards. -/
def InletSession.on_try_extract_frame (buffer : List Nat) :
    Except String (Option (List Nat)) × List Nat :=
  (Except.ok (Option.some buffer), [])

/-- InletSession::on_recv_frame of inlet.rs: compress iff is_compressed,
then encrypt iff the method is not None; then the backpressure spin
`while read_buf_len > READ_BUF_MAX_LEN { yield_now }`.  Sequentially the
spin makes no progress (only a concurrent O2iSendDataResult can lower the
counter), so a state still above the ceiling is returned as
`Option.none` (the call is parked in the wait loop); otherwise the
counter is incremented by the transformed frame's length and
I2oSendData is emitted. -/
def InletSession.on_recv_frame (kit : CryptoKit) (s : InletSession)
    (frame : List Nat) : Except String (Option (InletSession × ProxyMessage)) :=
  match (if s.is_compressed then kit.compress_data frame else Except.ok frame) with
  | Except.error e => Except.error e
  | Except.ok f1 =>
    match (match s.encryption_method with
           | EncryptionMethod.None => Except.ok f1
           | _ => kit.encrypt s.encryption_method s.encryption_key f1) with
    | Except.error e => Except.error e
    | Except.ok f2 =>
      if s.read_buf_len > READ_BUF_MAX_LEN then
        Except.ok Option.none
      else
        Except.ok (Option.some
          ({ s with read_buf_len := s.read_buf_len + f2.length },
           ProxyMessage.I2oSendData s.session_id f2))

/-- A trivial crypto kit (identity transforms, empty keys, every name
mapping to method None), used to evaluate the inlet code on concrete
inputs. -/
def idKit : CryptoKit :=
  { get_method := fun _ => EncryptionMethod.None
    generate_key := fun _ => []
    compress_data := fun d => Except.ok d
    decompress_data := fun d => Except.ok d
    encrypt := fun _ _ d => Except.ok d
    decrypt := fun _ _ d => Except.ok d }

/-- A concrete registry record. -/
def sampleInfo : SessionInfo :=
  { sent := []
    is_compressed := false
    encryption_method := EncryptionMethod.None
    encryption_key := []
    read_buf_len := 10 }

/-- A concrete registry holding session 7. -/
def sampleReg : SessionInfoMap := [(7, sampleInfo)]

/-- A concrete inlet session state for session 7. -/
def sampleSession : InletSession :=
  { is_tcp := true
    output_addr := "127.0.0.1:80"
    session_id := 7
    is_compressed := false
    encryption_method := EncryptionMethod.None
    encryption_key := []
    read_buf_len := 0 }

theorem lookup_updateSession_self (reg : SessionInfoMap) (sid : Nat)
    (f : SessionInfo → SessionInfo) :
    lookupSession (updateSession reg sid f) sid
      = Option.map f (lookupSession reg sid) := by
  induction reg with
  | nil => rfl
  | cons p rest ih =>
    by_cases h : p.1 = sid
    · simp [updateSession, lookupSession, h]
    · simp only [updateSession, List.map_cons, if_neg h] at ih ⊢
      simpa [lookupSession, h] using ih

theorem lookup_updateSession_ne (reg : SessionInfoMap) (sid sid2 : Nat)
    (f : SessionInfo → SessionInfo) (hne : sid2 ≠ sid) :
    lookupSession (updateSession reg sid f) sid2 = lookupSession reg sid2 := by
  induction reg with
  | nil => rfl
  | cons p rest ih =>
    by_cases h : p.1 = sid
    · have h2 : p.1 ≠ sid2 := by
        intro hc
        exact hne (hc ▸ h)
      simp [updateSession, lookupSession, h, h2, Ne.symm hne] at ih ⊢
      simpa [updateSession] using ih
    · simp only [updateSession, List.map_cons, if_neg h] at ih ⊢
      by_cases h2 : p.1 = sid2
      · simp [lookupSession, h2]
      · simpa [lookupSession, h2] using ih

theorem lookup_removeSession_self (reg : SessionInfoMap) (sid : Nat) :
    lookupSession (removeSession reg sid) sid = Option.none := by
  induction reg with
  | nil => rfl
  | cons p rest ih =>
    simp only [removeSession, List.filter_cons] at ih ⊢
    by_cases h : p.1 = sid
    · simpa [h] using ih
    · have hb : (p.1 != sid) = true := by simp [bne_iff_ne, h]
      simpa [hb, lookupSession, h] using ih

theorem removeSession_idem (reg : SessionInfoMap) (sid : Nat) :
    removeSession (removeSession reg sid) sid = removeSession reg sid := by
  induction reg with
  | nil => rfl
  | cons p rest ih =>
    simp only [removeSession, List.filter_cons] at ih ⊢
    by_cases h : p.1 = sid
    · simp [h]
    · have hb : (p.1 != sid) = true := by simp [bne_iff_ne, h]
      simp [hb, List.filter_cons, ih]

/-- C6: the Inlet-TCP frame extractor is maximal: it returns exactly the
buffer's current contents as one frame and leaves the buffer empty (no
non-consuming peek). -/
theorem on_try_extract_frame_maximal (buffer : List Nat) :
    (InletSession.on_try_extract_frame buffer).1 = Except.ok (Option.some buffer)
    ∧ (InletSession.on_try_extract_frame buffer).2 = [] :=
  ⟨rfl, rfl⟩

/-- C10: on_try_extract_frame never returns the no-frame result and never
errors: every buffer yields Ok(Some(frame)), and the empty buffer yields
Some of an empty frame rather than None. -/
theorem on_try_extract_frame_total :
    (∀ buffer : List Nat, ∃ f,
      (InletSession.on_try_extract_frame buffer).1 = Except.ok (Option.some f))
    ∧ (InletSession.on_try_extract_frame []).1 = Except.ok (Option.some []) :=
  ⟨fun buffer => ⟨buffer, rfl⟩, rfl⟩

/-- C5 amended: on_session_close removes the session's registry entry and
emits exactly one I2oDisconnect(session_id) per invocation; a second
invocation for the same session leaves the registry in the same state
(removal is idempotent) but emits an additional I2oDisconnect. -/
theorem on_session_close_spec (s : InletSession) (reg : SessionInfoMap) :
    InletSession.on_session_close s reg
      = (removeSession reg s.session_id, [ProxyMessage.I2oDisconnect s.session_id])
    ∧ lookupSession (InletSession.on_session_close s reg).1 s.session_id = Option.none
    ∧ (InletSession.on_session_close s (InletSession.on_session_close s reg).1).1
        = (InletSession.on_session_close s reg).1
    ∧ (InletSession.on_session_close s (InletSession.on_session_close s reg).1).2
        = [ProxyMessage.I2oDisconnect s.session_id] := by
  refine ⟨rfl, ?_, ?_, rfl⟩
  · exact lookup_removeSession_self reg s.session_id
  · simp only [InletSession.on_session_close]
    exact removeSession_idem reg s.session_id

/-- C5 counterexample: a second invocation of on_session_close for the
same session does have an observable effect beyond the first — it emits
I2oDisconnect again (here for session 7 of a concrete registry). -/
theorem on_session_close_second_call_emits :
    (InletSession.on_session_close sampleSession
        (InletSession.on_session_close sampleSession sampleReg).1).2
      = [ProxyMessage.I2oDisconnect 7]
    ∧ (InletSession.on_session_close sampleSession
        (InletSession.on_session_close sampleSession sampleReg).1).2 ≠ [] :=
  ⟨rfl, by decide⟩

/-- C7: start fails with RepeatedStart when already running (checked
first), with NotImplemented when the transport type is SOCKS5, and with
the bind failure when binding the listen address fails; in every other
case it succeeds and the Inlet is running afterwards. -/
theorem inlet_start_spec (running : Bool) (t : InletProxyType)
    (bind_result : Except String Unit) :
    (running = true →
      Inlet.start running t bind_result = (Except.error ("Repeated start"), true))
    ∧ (running = false → t = InletProxyType.SOCKS5 →
      Inlet.start running t bind_result
        = (Except.error ("SOCKS5 (Not implemented)"), false))
    ∧ (∀ e, running = false → t ≠ InletProxyType.SOCKS5 →
        bind_result = Except.error e →
      Inlet.start running t bind_result = (Except.error e, false))
    ∧ (running = false → t ≠ InletProxyType.SOCKS5 → bind_result = Except.ok () →
      Inlet.start running t bind_result = (Except.ok (), true)) := by
  cases t <;> cases running <;> cases bind_result <;> simp [Inlet.start]

/-- Witness for C7: a start on an already-running Inlet fails with the
RepeatedStart error and leaves it running. -/
theorem inlet_start_spec_witness :
    Inlet.start true InletProxyType.TCP (Except.ok ())
      = (Except.error ("Repeated start"), true) :=
  (inlet_start_spec true InletProxyType.TCP (Except.ok ())).1 rfl

/-- C1: on_recv_frame first compresses iff is_compressed, then encrypts
iff the method is not None (hypotheses h1, h2 name the two transform
steps in that order); READ_BUF_MAX_LEN is 1 048 576; while the counter
exceeds it the call stays parked in the cooperative wait (sequentially:
no result); once at or below it, read_buf_len grows by the transformed
frame's length and I2oSendData(session_id, transformed) is emitted. -/
theorem inlet_on_recv_frame_spec (kit : CryptoKit) (s : InletSession)
    (frame f1 f2 : List Nat)
    (h1 : (if s.is_compressed then kit.compress_data frame else Except.ok frame)
      = Except.ok f1)
    (h2 : (match s.encryption_method with
           | EncryptionMethod.None => Except.ok f1
           | _ => kit.encrypt s.encryption_method s.encryption_key f1)
      = Except.ok f2) :
    READ_BUF_MAX_LEN = 1048576
    ∧ (s.read_buf_len > READ_BUF_MAX_LEN →
        InletSession.on_recv_frame kit s frame = Except.ok Option.none)
    ∧ (s.read_buf_len ≤ READ_BUF_MAX_LEN →
        InletSession.on_recv_frame kit s frame = Except.ok (Option.some
          ({ s with read_buf_len := s.read_buf_len + f2.length },
           ProxyMessage.I2oSendData s.session_id f2))) := by
  refine ⟨rfl, ?_, ?_⟩ <;> intro h <;>
    simp [InletSession.on_recv_frame, h1, h2, h, Nat.not_lt.mpr h]

/-- Witness for C1: a concrete uncompressed, unencrypted session below
the ceiling sends the frame through unchanged and counts its length. -/
theorem inlet_on_recv_frame_spec_witness :
    InletSession.on_recv_frame idKit sampleSession [1, 2, 3]
      = Except.ok (Option.some
          ({ sampleSession with read_buf_len := sampleSession.read_buf_len + 3 },
           ProxyMessage.I2oSendData sampleSession.session_id [1, 2, 3])) :=
  (inlet_on_recv_frame_spec idKit sampleSession [1, 2, 3] [1, 2, 3] [1, 2, 3]
    rfl rfl).2.2 (by decide)

/-- C2: read_buf_len (a Nat in this embedding, as usize in the source) is
always nonnegative, and O2iSendDataResult(sid, n) on a registered session
replaces its value v by v - n when n < v and by 0 otherwise, emitting
nothing and leaving every other field and every other session's entry
unchanged. -/
theorem o2i_send_data_result_spec (kit : CryptoKit) (reg : SessionInfoMap)
    (sid data_len : Nat) (s : SessionInfo)
    (h : lookupSession reg sid = Option.some s) :
    ∃ reg2,
      Inlet.input_internal kit reg (ProxyMessage.O2iSendDataResult sid data_len)
        = Except.ok (reg2, [])
      ∧ lookupSession reg2 sid = Option.some
          { s with read_buf_len :=
              if data_len < s.read_buf_len then s.read_buf_len - data_len else 0 }
      ∧ (∀ sid2, sid2 ≠ sid → lookupSession reg2 sid2 = lookupSession reg sid2)
      ∧ 0 ≤ s.read_buf_len := by
  refine ⟨updateSession reg sid (fun info =>
      { info with read_buf_len :=
          if info.read_buf_len ≤ data_len then 0
          else info.read_buf_len - data_len }), ?_, ?_, ?_, Nat.zero_le _⟩
  · simp [Inlet.input_internal, h]
  · rw [lookup_updateSession_self, h]
    by_cases hc : s.read_buf_len ≤ data_len
    · simp [hc, Nat.not_lt.mpr hc]
    · simp [hc, Nat.lt_of_not_le hc]
  · intro sid2 hne
    exact lookup_updateSession_ne reg sid sid2 _ hne

/-- Witness for C2: an ack of 4 against a counter of 10 in a concrete
registry leaves 6, and the rest of the record is untouched. -/
theorem o2i_send_data_result_spec_witness :
    ∃ reg2,
      Inlet.input_internal idKit sampleReg (ProxyMessage.O2iSendDataResult 7 4)
        = Except.ok (reg2, [])
      ∧ lookupSession reg2 7 = Option.some
          { sampleInfo with read_buf_len :=
              if 4 < sampleInfo.read_buf_len then sampleInfo.read_buf_len - 4 else 0 }
      ∧ (∀ sid2, sid2 ≠ 7 → lookupSession reg2 sid2 = lookupSession sampleReg sid2)
      ∧ 0 ≤ sampleInfo.read_buf_len :=
  o2i_send_data_result_spec idKit sampleReg 7 4 sampleInfo rfl

/-- C3: O2iRecvData(sid, data) on a registered session records the
encoded length |data| first, then decrypts iff the method is not None and
decompresses iff is_compressed (hypotheses hdec, hdecomp name the steps
in that order), enqueues SendAndThen (the source's SendAndAck) carrying
the decoded bytes on the session's writer sink, with a completion that
emits I2oRecvDataResult(sid, |data|) — the pre-decode length. -/
theorem o2i_recv_data_spec (kit : CryptoKit) (reg : SessionInfoMap)
    (sid : Nat) (data : List Nat) (s : SessionInfo) (d1 d2 : List Nat)
    (h : lookupSession reg sid = Option.some s)
    (hdec : (match s.encryption_method with
             | EncryptionMethod.None => Except.ok data
             | _ => kit.decrypt s.encryption_method s.encryption_key data)
      = Except.ok d1)
    (hdecomp : (if s.is_compressed then kit.decompress_data d1 else Except.ok d1)
      = Except.ok d2) :
    ∃ reg2,
      Inlet.input_internal kit reg (ProxyMessage.O2iRecvData sid data)
        = Except.ok (reg2, [])
      ∧ lookupSession reg2 sid = Option.some
          { s with sent := s.sent ++ [WriterMessage.SendAndThen d2
              (ProxyMessage.I2oRecvDataResult sid data.length)] }
      ∧ (∀ sid2, sid2 ≠ sid → lookupSession reg2 sid2 = lookupSession reg sid2) := by
  refine ⟨updateSession reg sid (fun info =>
      { info with sent := info.sent ++ [WriterMessage.SendAndThen d2
          (ProxyMessage.I2oRecvDataResult sid data.length)] }), ?_, ?_, ?_⟩
  · simp [Inlet.input_internal, h, hdec, hdecomp]
  · rw [lookup_updateSession_self, h]
    rfl
  · intro sid2 hne
    exact lookup_updateSession_ne reg sid sid2 _ hne

/-- Witness for C3: plaintext bytes [9, 9] for registered session 7 are
enqueued as SendAndThen with an ack carrying length 2. -/
theorem o2i_recv_data_spec_witness :
    ∃ reg2,
      Inlet.input_internal idKit sampleReg (ProxyMessage.O2iRecvData 7 [9, 9])
        = Except.ok (reg2, [])
      ∧ lookupSession reg2 7 = Option.some
          { sampleInfo with sent := sampleInfo.sent ++ [WriterMessage.SendAndThen [9, 9]
              (ProxyMessage.I2oRecvDataResult 7 2)] }
      ∧ (∀ sid2, sid2 ≠ 7 → lookupSession reg2 sid2 = lookupSession sampleReg sid2) :=
  o2i_recv_data_spec idKit sampleReg 7 [9, 9] sampleInfo [9, 9] [9, 9] rfl rfl rfl

/-- C4: an O2i message for a session id absent from the registry is
dropped silently: input leaves the registry (hence every session's
counter and writer sink) unchanged, emits nothing, and returns normally
to its caller. -/
theorem unknown_session_dropped (kit : CryptoKit) (reg : SessionInfoMap)
    (m : ProxyMessage)
    (hm : m.isO2i = true)
    (h : lookupSession reg m.session_id = Option.none) :
    Inlet.input kit reg m = (reg, []) := by
  cases m with
  | O2iConnect sid success err =>
    simp only [ProxyMessage.session_id] at h
    cases success <;> simp [Inlet.input, Inlet.input_internal, h]
  | O2iDisconnect sid =>
    simp only [ProxyMessage.session_id] at h
    simp [Inlet.input, Inlet.input_internal, h]
  | O2iRecvData sid data =>
    simp only [ProxyMessage.session_id] at h
    simp [Inlet.input, Inlet.input_internal, h]
  | O2iSendDataResult sid n =>
    simp only [ProxyMessage.session_id] at h
    simp [Inlet.input, Inlet.input_internal, h]
  | I2oConnect a b c d e f g => simp [ProxyMessage.isO2i] at hm
  | I2oDisconnect sid => simp [ProxyMessage.isO2i] at hm
  | I2oSendData sid data => simp [ProxyMessage.isO2i] at hm
  | I2oRecvDataResult sid n => simp [ProxyMessage.isO2i] at hm

/-- Witness for C4: O2iRecvData for absent session 999 leaves a concrete
registry untouched and emits nothing. -/
theorem unknown_session_dropped_witness :
    Inlet.input idKit sampleReg (ProxyMessage.O2iRecvData 999 [1]) = (sampleReg, []) :=
  unknown_session_dropped idKit sampleReg (ProxyMessage.O2iRecvData 999 [1]) rfl rfl

/-- C8: for a registered session, a failed O2iConnect enqueues Close on
that session's writer sink, a successful O2iConnect performs no action,
and O2iDisconnect enqueues Close on the matching writer sink; other
sessions are untouched and nothing is emitted. -/
theorem o2i_connect_disconnect_spec (kit : CryptoKit) (reg : SessionInfoMap)
    (sid : Nat) (err : String) (s : SessionInfo)
    (h : lookupSession reg sid = Option.some s) :
    (∃ reg2,
      Inlet.input_internal kit reg (ProxyMessage.O2iConnect sid false err)
        = Except.ok (reg2, [])
      ∧ lookupSession reg2 sid
          = Option.some { s with sent := s.sent ++ [WriterMessage.Close] }
      ∧ ∀ sid2, sid2 ≠ sid → lookupSession reg2 sid2 = lookupSession reg sid2)
    ∧ Inlet.input_internal kit reg (ProxyMessage.O2iConnect sid true err)
        = Except.ok (reg, [])
    ∧ (∃ reg3,
      Inlet.input_internal kit reg (ProxyMessage.O2iDisconnect sid)
        = Except.ok (reg3, [])
      ∧ lookupSession reg3 sid
          = Option.some { s with sent := s.sent ++ [WriterMessage.Close] }
      ∧ ∀ sid2, sid2 ≠ sid → lookupSession reg3 sid2 = lookupSession reg sid2) := by
  refine ⟨⟨updateSession reg sid (fun info =>
      { info with sent := info.sent ++ [WriterMessage.Close] }), ?_, ?_, ?_⟩,
    by simp [Inlet.input_internal],
    ⟨updateSession reg sid (fun info =>
      { info with sent := info.sent ++ [WriterMessage.Close] }), ?_, ?_, ?_⟩⟩
  · simp [Inlet.input_internal, h]
  · rw [lookup_updateSession_self, h]
    rfl
  · intro sid2 hne
    exact lookup_updateSession_ne reg sid sid2 _ hne
  · simp [Inlet.input_internal, h]
  · rw [lookup_updateSession_self, h]
    rfl
  · intro sid2 hne
    exact lookup_updateSession_ne reg sid sid2 _ hne

/-- Witness for C8: a successful O2iConnect for registered session 7
leaves a concrete registry untouched and emits nothing. -/
theorem o2i_connect_disconnect_spec_witness :
    Inlet.input_internal idKit sampleReg (ProxyMessage.O2iConnect 7 true "x")
      = Except.ok (sampleReg, []) :=
  (o2i_connect_disconnect_spec idKit sampleReg 7 "x" sampleInfo rfl).2.1

/-- C9: on a freshly constructed session, on_session_start assigns the
acceptor-provided session id, inserts the registry record carrying the
key fixed at construction, and emits one I2oConnect with, in order, the
session id, the transport kind, the compression flag, the configured
endpoint address, the method's name, the standard-base64 encoding of the
key, and the observed client address. -/
theorem on_session_start_spec (kit : CryptoKit) (is_tcp : Bool)
    (output_addr : String) (is_compressed : Bool) (method_name : String)
    (sid : Nat) (addr : String) (reg : SessionInfoMap) :
    InletSession.on_session_start
        (InletSession.new kit is_tcp output_addr is_compressed method_name)
        sid addr reg
      = ({ InletSession.new kit is_tcp output_addr is_compressed method_name with
            session_id := sid },
         insertSession reg sid
           { sent := []
             is_compressed := is_compressed
             encryption_method := kit.get_method method_name
             encryption_key := kit.generate_key (kit.get_method method_name)
             read_buf_len := 0 },
         [ProxyMessage.I2oConnect sid is_tcp is_compressed output_addr
            (EncryptionMethod.to_string (kit.get_method method_name))
            (base64_standard_encode (kit.generate_key (kit.get_method method_name)))
            addr])
    ∧ lookupSession
        (InletSession.on_session_start
          (InletSession.new kit is_tcp output_addr is_compressed method_name)
          sid addr reg).2.1 sid
      = Option.some
          { sent := []
            is_compressed := is_compressed
            encryption_method := kit.get_method method_name
            encryption_key := kit.generate_key (kit.get_method method_name)
            read_buf_len := 0 } := by
  refine ⟨rfl, ?_⟩
  simp [InletSession.on_session_start, InletSession.new, insertSession, lookupSession]
